import Mathlib

/-!
Verification of the dual-write / reconciliation / sync engine of
`src/services/hybridDataService.ts`.

Entities are modelled as minimal structures carrying the string `id` the
merge keys on plus an opaque payload standing for the type-specific fields.
Time values (ISO strings / epoch milliseconds in the source) are modelled as
natural numbers; the millisecond difference computed for `sessionDuration`
is an integer.  Remote (Firebase) calls are modelled by an explicit trace of
issued calls together with an `Except`-valued parameter standing for the
awaited result of the call; `console` logging is modelled as a list of
emitted log lines.
-/

namespace HybridData

/-- A user record: `id` plus the type-specific fields (abstracted). -/
structure User where
  id : String
  payload : Nat
deriving DecidableEq, Repr

/-- A component record: `id` plus the type-specific fields (abstracted). -/
structure Component where
  id : String
  payload : Nat
deriving DecidableEq, Repr

/-- A borrow-request record: `id` plus the type-specific fields (abstracted). -/
structure BorrowRequest where
  id : String
  payload : Nat
deriving DecidableEq, Repr

/-- A notification record: `id`, its read flag, and the remaining fields
(abstracted). -/
structure Notification where
  id : String
  read : Bool
  payload : Nat
deriving DecidableEq, Repr

/-- A login-session record, with times in epoch milliseconds. -/
structure LoginSession where
  id : String
  userId : String
  loginTime : Nat
  logoutTime : Option Nat
  sessionDuration : Option Int
  isActive : Bool
deriving DecidableEq, Repr

/-- The `SystemData` snapshot: the five entity collections. -/
structure SystemData where
  users : List User
  components : List Component
  requests : List BorrowRequest
  notifications : List Notification
  loginSessions : List LoginSession
deriving DecidableEq, Repr

/-- Body of the `local.forEach` loop of `mergeArrays`
(src/services/hybridDataService.ts lines 96-103): append `localItem` to
`merged` unless an element with the same id is already present
(`findIndex ... === -1`). -/
def mergeStep {α : Type} (idOf : α → String) (merged : List α) (localItem : α) : List α :=
  if merged.any (fun item => idOf item == idOf localItem) then merged
  else merged ++ [localItem]

/-- `mergeArrays` (src/services/hybridDataService.ts lines 89-106): start
from the firebase collection verbatim and run the forEach loop over the
local collection.  The TS function is generic over `T extends { id: string }`
with the id accessed through `idField`; here the projection is `idOf`. -/
def mergeArrays {α : Type} (idOf : α → String) (localArr firebaseArr : List α) : List α :=
  localArr.foldl (mergeStep idOf) firebaseArr

/-- `mergeData` (src/services/hybridDataService.ts lines 77-87): merge each
of the five collections independently, firebase data taking precedence. -/
def mergeData (localData firebaseData : SystemData) : SystemData :=
  { users := mergeArrays User.id localData.users firebaseData.users
    components := mergeArrays Component.id localData.components firebaseData.components
    requests := mergeArrays BorrowRequest.id localData.requests firebaseData.requests
    notifications := mergeArrays Notification.id localData.notifications firebaseData.notifications
    loginSessions := mergeArrays LoginSession.id localData.loginSessions firebaseData.loginSessions }

/-- `isFirebaseEmpty` (src/services/hybridDataService.ts lines 71-75): the
check consults `users`, `components` and `requests` only. -/
def isFirebaseEmpty (data : SystemData) : Bool :=
  data.users.length == 0 &&
  data.components.length == 0 &&
  data.requests.length == 0

/-- Orchestrator state visible across calls: the `isOnline` and
`syncInProgress` flags of the `HybridDataService` singleton, together with
the snapshot held by the local store (`dataService`). -/
structure SyncState where
  isOnline : Bool
  syncInProgress : Bool
  localData : SystemData
deriving DecidableEq, Repr

/-- Remote calls a sync pass can issue. -/
inductive RemoteCall where
  | fetchSnapshot
  | migrateLocalDataToFirebase (d : SystemData)
deriving DecidableEq, Repr

/-- `syncWithFirebase` (src/services/hybridDataService.ts lines 43-69).
`fetchResult` stands for the awaited result of
`firebaseService.syncWithFirebase()`, `migrateResult` for the awaited result
of `firebaseService.migrateLocalDataToFirebase` (consulted only on the
migration path).  Returns the new state, the trace of remote calls issued,
and the log lines emitted.  `dataService.saveData(mergedData)` is the update
of `localData`; the `finally` block is the `syncInProgress := false` in
every non-guard branch. -/
def syncWithFirebase (st : SyncState) (fetchResult : Except String SystemData)
    (migrateResult : Except String Unit) :
    SyncState × List RemoteCall × List String :=
  if !st.isOnline || st.syncInProgress then (st, [], [])
  else
    match fetchResult with
    | .error e =>
        ({ st with syncInProgress := false }, [RemoteCall.fetchSnapshot],
         ["Sync failed: " ++ e])
    | .ok firebaseData =>
        if isFirebaseEmpty firebaseData then
          match migrateResult with
          | .ok _ =>
              ({ st with syncInProgress := false },
               [RemoteCall.fetchSnapshot, RemoteCall.migrateLocalDataToFirebase st.localData],
               ["Migrating local data to Firebase..."])
          | .error e =>
              ({ st with syncInProgress := false },
               [RemoteCall.fetchSnapshot, RemoteCall.migrateLocalDataToFirebase st.localData],
               ["Migrating local data to Firebase...", "Sync failed: " ++ e])
        else
          ({ st with syncInProgress := false
                     localData := mergeData st.localData firebaseData },
           [RemoteCall.fetchSnapshot],
           ["Syncing Firebase data with local storage..."])

namespace DataService

/-- Modelled from the spec: `dataService.addUser` (local store adapter, not
under src/) — appends the user to the local `users` collection. -/
def addUser (d : SystemData) (u : User) : SystemData :=
  { d with users := d.users ++ [u] }

/-- Modelled from the spec: `dataService.updateUser` — replaces the stored
user with the same id. -/
def updateUser (d : SystemData) (u : User) : SystemData :=
  { d with users := d.users.map (fun x => if x.id == u.id then u else x) }

/-- Modelled from the spec: `dataService.addComponent`. -/
def addComponent (d : SystemData) (c : Component) : SystemData :=
  { d with components := d.components ++ [c] }

/-- Modelled from the spec: `dataService.updateComponent`. -/
def updateComponent (d : SystemData) (c : Component) : SystemData :=
  { d with components := d.components.map (fun x => if x.id == c.id then c else x) }

/-- Modelled from the spec: `dataService.deleteComponent` — removes the
component with the given id from the local collection. -/
def deleteComponent (d : SystemData) (componentId : String) : SystemData :=
  { d with components := d.components.filter (fun x => !(x.id == componentId)) }

/-- Modelled from the spec: `dataService.addRequest`. -/
def addRequest (d : SystemData) (r : BorrowRequest) : SystemData :=
  { d with requests := d.requests ++ [r] }

/-- Modelled from the spec: `dataService.updateRequest`. -/
def updateRequest (d : SystemData) (r : BorrowRequest) : SystemData :=
  { d with requests := d.requests.map (fun x => if x.id == r.id then r else x) }

/-- Modelled from the spec: `dataService.addNotification`. -/
def addNotification (d : SystemData) (n : Notification) : SystemData :=
  { d with notifications := d.notifications ++ [n] }

/-- Modelled from the spec: `dataService.markNotificationAsRead` — sets the
read flag of the notification with the given id. -/
def markNotificationAsRead (d : SystemData) (notificationId : String) : SystemData :=
  { d with notifications :=
      d.notifications.map (fun n =>
        if n.id == notificationId then { n with read := true } else n) }

/-- Modelled from the spec: `dataService.createLoginSession(user)` — creates
an open session (`isActive = true`, no logout time, no duration) with the
given fresh id at the current time, appends it, and returns it. -/
def createLoginSession (d : SystemData) (u : User) (sid : String) (now : Nat) :
    SystemData × LoginSession :=
  let s : LoginSession :=
    { id := sid, userId := u.id, loginTime := now,
      logoutTime := none, sessionDuration := none, isActive := true }
  ({ d with loginSessions := d.loginSessions ++ [s] }, s)

/-- Closing a session at time `now`: `isActive` false, `logoutTime` the close
time, `sessionDuration` the wall-clock delta from the session's stored open
time. -/
def closeSession (now : Nat) (s : LoginSession) : LoginSession :=
  { s with isActive := false, logoutTime := some now,
           sessionDuration := some ((now : Int) - (s.loginTime : Int)) }

/-- Modelled from the spec: `dataService.endLoginSession(userId)` — closes
the user's active sessions in the local store at time `now`. -/
def endLoginSession (d : SystemData) (userId : String) (now : Nat) : SystemData :=
  { d with loginSessions :=
      d.loginSessions.map (fun s =>
        if s.userId == userId && s.isActive then closeSession now s else s) }

end DataService

/-- Remote (Firebase) write calls the dual-write wrappers can issue. -/
inductive RemoteWrite where
  | createUser (u : User)
  | updateUser (id : String) (u : User)
  | createComponent (c : Component)
  | updateComponent (id : String) (c : Component)
  | deleteComponent (id : String)
  | createRequest (r : BorrowRequest)
  | updateRequest (id : String) (r : BorrowRequest)
  | createNotification (n : Notification)
  | markNotificationAsRead (id : String)
  | createLoginSession (s : LoginSession)
deriving DecidableEq, Repr

/-- Shape shared by every dual-write wrapper (src/services/hybridDataService.ts
lines 109-231): write to the local store first and unconditionally, then, if
online, issue the mirrored remote call; a remote failure is only logged.
`remoteResult` stands for the awaited outcome of the mirrored call. -/
def dualWrite (isOnline : Bool) (d1 : SystemData) (call : RemoteWrite)
    (warnPrefix : String) (remoteResult : Except String Unit) :
    SystemData × List RemoteWrite × List String :=
  if isOnline then
    match remoteResult with
    | .ok _ => (d1, [call], [])
    | .error e => (d1, [call], [warnPrefix ++ e])
  else (d1, [], [])

/-- `addUser` wrapper (src/services/hybridDataService.ts lines 109-121). -/
def addUser (isOnline : Bool) (d : SystemData) (u : User)
    (remoteResult : Except String Unit) : SystemData × List RemoteWrite × List String :=
  dualWrite isOnline (DataService.addUser d u) (RemoteWrite.createUser u)
    "Failed to sync user to Firebase: " remoteResult

/-- `updateUser` wrapper (lines 123-133). -/
def updateUser (isOnline : Bool) (d : SystemData) (u : User)
    (remoteResult : Except String Unit) : SystemData × List RemoteWrite × List String :=
  dualWrite isOnline (DataService.updateUser d u) (RemoteWrite.updateUser u.id u)
    "Failed to sync user update to Firebase: " remoteResult

/-- `addComponent` wrapper (lines 135-145). -/
def addComponent (isOnline : Bool) (d : SystemData) (c : Component)
    (remoteResult : Except String Unit) : SystemData × List RemoteWrite × List String :=
  dualWrite isOnline (DataService.addComponent d c) (RemoteWrite.createComponent c)
    "Failed to sync component to Firebase: " remoteResult

/-- `updateComponent` wrapper (lines 147-157). -/
def updateComponent (isOnline : Bool) (d : SystemData) (c : Component)
    (remoteResult : Except String Unit) : SystemData × List RemoteWrite × List String :=
  dualWrite isOnline (DataService.updateComponent d c) (RemoteWrite.updateComponent c.id c)
    "Failed to sync component update to Firebase: " remoteResult

/-- `deleteComponent` wrapper (lines 159-169). -/
def deleteComponent (isOnline : Bool) (d : SystemData) (componentId : String)
    (remoteResult : Except String Unit) : SystemData × List RemoteWrite × List String :=
  dualWrite isOnline (DataService.deleteComponent d componentId)
    (RemoteWrite.deleteComponent componentId)
    "Failed to sync component deletion to Firebase: " remoteResult

/-- `addRequest` wrapper (lines 171-181). -/
def addRequest (isOnline : Bool) (d : SystemData) (r : BorrowRequest)
    (remoteResult : Except String Unit) : SystemData × List RemoteWrite × List String :=
  dualWrite isOnline (DataService.addRequest d r) (RemoteWrite.createRequest r)
    "Failed to sync request to Firebase: " remoteResult

/-- `updateRequest` wrapper (lines 183-193). -/
def updateRequest (isOnline : Bool) (d : SystemData) (r : BorrowRequest)
    (remoteResult : Except String Unit) : SystemData × List RemoteWrite × List String :=
  dualWrite isOnline (DataService.updateRequest d r) (RemoteWrite.updateRequest r.id r)
    "Failed to sync request update to Firebase: " remoteResult

/-- `addNotification` wrapper (lines 195-205). -/
def addNotification (isOnline : Bool) (d : SystemData) (n : Notification)
    (remoteResult : Except String Unit) : SystemData × List RemoteWrite × List String :=
  dualWrite isOnline (DataService.addNotification d n) (RemoteWrite.createNotification n)
    "Failed to sync notification to Firebase: " remoteResult

/-- `markNotificationAsRead` wrapper (lines 207-217). -/
def markNotificationAsRead (isOnline : Bool) (d : SystemData) (notificationId : String)
    (remoteResult : Except String Unit) : SystemData × List RemoteWrite × List String :=
  dualWrite isOnline (DataService.markNotificationAsRead d notificationId)
    (RemoteWrite.markNotificationAsRead notificationId)
    "Failed to sync notification read status to Firebase: " remoteResult

/-- `createLoginSession` wrapper (lines 219-231): the local store creates the
session first; the created session is mirrored remotely and returned. -/
def createLoginSession (isOnline : Bool) (d : SystemData) (u : User) (sid : String)
    (now : Nat) (remoteResult : Except String Unit) :
    (SystemData × List RemoteWrite × List String) × LoginSession :=
  let p := DataService.createLoginSession d u sid now
  (dualWrite isOnline p.1 (RemoteWrite.createLoginSession p.2)
    "Failed to sync login session to Firebase: " remoteResult, p.2)

/-- Remote calls `endLoginSession` can issue. -/
inductive SessionCall where
  | getAllLoginSessions
  | updateLoginSession (id : String) (isActive : Bool) (logoutTime : Nat)
      (sessionDuration : Int)
deriving DecidableEq, Repr

/-- `endLoginSession` wrapper (src/services/hybridDataService.ts lines
233-253): close the user's sessions locally first; then, if online, fetch
all remote login sessions (`remoteFetch` stands for the awaited result),
filter those of `userId` with `isActive`, and issue a closing update for
each, with `logoutTime` the current time and `sessionDuration` the delta
from that session's stored `loginTime`. -/
def endLoginSession (isOnline : Bool) (d : SystemData) (userId : String) (now : Nat)
    (remoteFetch : Except String (List LoginSession)) :
    SystemData × List SessionCall × List String :=
  let d1 := DataService.endLoginSession d userId now
  if isOnline then
    match remoteFetch with
    | .error e => (d1, [SessionCall.getAllLoginSessions],
        ["Failed to sync session end to Firebase: " ++ e])
    | .ok sessions =>
        let activeSessions := sessions.filter (fun s => s.userId == userId && s.isActive)
        (d1, SessionCall.getAllLoginSessions ::
          activeSessions.map (fun s =>
            SessionCall.updateLoginSession s.id false now ((now : Int) - (s.loginTime : Int))),
         [])
  else (d1, [], [])

/-! Generic lemmas about `mergeArrays`. -/

theorem subset_foldl_mergeStep {α : Type} (idOf : α → String) :
    ∀ (L acc : List α), acc ⊆ L.foldl (mergeStep idOf) acc := by
  intro L
  induction L with
  | nil => intro acc; simp
  | cons x xs ih =>
      intro acc
      rw [List.foldl_cons]
      refine List.Subset.trans ?_ (ih (mergeStep idOf acc x))
      unfold mergeStep
      split
      · exact List.Subset.refl acc
      · exact List.subset_append_left acc [x]

theorem idOf_mem_mergeStep {α : Type} (idOf : α → String) (acc : List α) (x : α) :
    idOf x ∈ (mergeStep idOf acc x).map idOf := by
  unfold mergeStep
  split
  · rename_i h
    obtain ⟨y, hy, hbeq⟩ := List.any_eq_true.mp h
    exact List.mem_map.mpr ⟨y, hy, beq_iff_eq.mp hbeq⟩
  · exact List.mem_map.mpr ⟨x, by simp, rfl⟩

theorem idOf_mem_foldl_of_mem_acc {α : Type} (idOf : α → String) (L acc : List α)
    (k : String) (hk : k ∈ acc.map idOf) :
    k ∈ (L.foldl (mergeStep idOf) acc).map idOf := by
  obtain ⟨y, hy, hyk⟩ := List.mem_map.mp hk
  exact List.mem_map.mpr ⟨y, subset_foldl_mergeStep idOf L acc hy, hyk⟩

theorem idOf_mem_foldl {α : Type} (idOf : α → String) :
    ∀ (L acc : List α) (x : α), x ∈ L →
      idOf x ∈ (L.foldl (mergeStep idOf) acc).map idOf := by
  intro L
  induction L with
  | nil => intro acc x hx; cases hx
  | cons z zs ih =>
      intro acc x hx
      rw [List.foldl_cons]
      rcases List.mem_cons.mp hx with hx | hx
      · subst hx
        exact idOf_mem_foldl_of_mem_acc idOf zs _ _ (idOf_mem_mergeStep idOf acc x)
      · exact ih _ x hx

theorem foldl_mergeStep_of_ids_mem {α : Type} (idOf : α → String) :
    ∀ (L acc : List α), (∀ x ∈ L, idOf x ∈ acc.map idOf) →
      L.foldl (mergeStep idOf) acc = acc := by
  intro L
  induction L with
  | nil => intro acc _; rfl
  | cons x xs ih =>
      intro acc h
      have hx : idOf x ∈ acc.map idOf := h x (by simp)
      obtain ⟨y, hy, hyx⟩ := List.mem_map.mp hx
      have hany : acc.any (fun item => idOf item == idOf x) = true :=
        List.any_eq_true.mpr ⟨y, hy, beq_iff_eq.mpr hyx⟩
      rw [List.foldl_cons]
      have hstep : mergeStep idOf acc x = acc := by
        unfold mergeStep; rw [hany]; simp
      rw [hstep]
      exact ih acc (fun z hz => h z (by simp [hz]))

theorem mergeArrays_self_absorb {α : Type} (idOf : α → String) (A B : List α) :
    mergeArrays idOf A (mergeArrays idOf A B) = mergeArrays idOf A B := by
  unfold mergeArrays
  exact foldl_mergeStep_of_ids_mem idOf A _ (fun x hx => idOf_mem_foldl idOf A B x hx)

theorem filter_foldl_mergeStep {α : Type} (idOf : α → String) (k : String) :
    ∀ (L acc : List α), (∃ y ∈ acc, idOf y = k) →
      (L.foldl (mergeStep idOf) acc).filter (fun z => idOf z == k) =
        acc.filter (fun z => idOf z == k) := by
  intro L
  induction L with
  | nil => intro acc _; rfl
  | cons x xs ih =>
      intro acc hk
      rw [List.foldl_cons]
      by_cases h : acc.any (fun item => idOf item == idOf x) = true
      · have hstep : mergeStep idOf acc x = acc := by
          unfold mergeStep; rw [h]; simp
        rw [hstep]; exact ih acc hk
      · have hstep : mergeStep idOf acc x = acc ++ [x] := by
          unfold mergeStep; rw [eq_false_of_ne_true h]; simp
        rw [hstep]
        obtain ⟨y, hy, hyk⟩ := hk
        have hxk : ¬ idOf x = k := by
          intro hxk
          exact h (List.any_eq_true.mpr ⟨y, hy, beq_iff_eq.mpr (hyk.trans hxk.symm)⟩)
        have := ih (acc ++ [x]) ⟨y, by simp [hy], hyk⟩
        rw [this, List.filter_append]
        simp [hxk]

theorem mergeArrays_filter_of_mem {α : Type} (idOf : α → String) (L R : List α)
    (k : String) (hk : ∃ y ∈ R, idOf y = k) :
    (mergeArrays idOf L R).filter (fun z => idOf z == k) =
      R.filter (fun z => idOf z == k) :=
  filter_foldl_mergeStep idOf k L R hk

theorem not_mem_mergeArrays {α : Type} (idOf : α → String) (L R : List α) (x : α)
    (hk : ∃ y ∈ R, idOf y = idOf x) (hx : x ∉ R) :
    x ∉ mergeArrays idOf L R := by
  intro hmem
  have hfilter : x ∈ (mergeArrays idOf L R).filter (fun z => idOf z == idOf x) :=
    List.mem_filter.mpr ⟨hmem, by simp⟩
  rw [mergeArrays_filter_of_mem idOf L R (idOf x) hk] at hfilter
  exact hx (List.mem_filter.mp hfilter).1

theorem foldl_mergeStep_eq_append {α : Type} (idOf : α → String) :
    ∀ (L acc : List α), (L.map idOf).Nodup →
      L.foldl (mergeStep idOf) acc =
        acc ++ L.filter (fun x => !acc.any (fun y => idOf y == idOf x)) := by
  intro L
  induction L with
  | nil => intro acc _; simp
  | cons x xs ih =>
      intro acc hnd
      rw [List.map_cons, List.nodup_cons] at hnd
      have hnd' : (xs.map idOf).Nodup := hnd.2
      have hxnotin : idOf x ∉ xs.map idOf := hnd.1
      rw [List.foldl_cons]
      by_cases h : acc.any (fun y => idOf y == idOf x) = true
      · have hstep : mergeStep idOf acc x = acc := by
          unfold mergeStep; rw [h]; simp
        rw [hstep, ih acc hnd']
        have hcond : (!acc.any (fun y => idOf y == idOf x)) = false := by
          rw [h]; rfl
        rw [List.filter_cons]
        simp [hcond]
      · have h' : acc.any (fun y => idOf y == idOf x) = false :=
          eq_false_of_ne_true h
        have hstep : mergeStep idOf acc x = acc ++ [x] := by
          unfold mergeStep; rw [h']; simp
        rw [hstep, ih (acc ++ [x]) hnd']
        have hfilter :
            xs.filter (fun z => !(acc ++ [x]).any (fun y => idOf y == idOf z)) =
              xs.filter (fun z => !acc.any (fun y => idOf y == idOf z)) := by
          apply List.filter_congr
          intro z hz
          have hne : (idOf x == idOf z) = false := by
            apply beq_eq_false_iff_ne.mpr
            intro hxz
            exact hxnotin (hxz ▸ List.mem_map.mpr ⟨z, hz, rfl⟩)
          rw [List.any_append]
          simp [hne]
        rw [hfilter]
        have hcondx : (!acc.any (fun y => idOf y == idOf x)) = true := by
          rw [h']; rfl
        rw [List.filter_cons]
        simp only [hcondx, if_true]
        simp

theorem mergeArrays_eq_append {α : Type} (idOf : α → String) (L R : List α)
    (hL : (L.map idOf).Nodup) :
    mergeArrays idOf L R =
      R ++ L.filter (fun x => !R.any (fun y => idOf y == idOf x)) :=
  foldl_mergeStep_eq_append idOf L R hL

theorem mem_mergeArrays_of_not_mem_ids {α : Type} (idOf : α → String)
    (L R : List α) (x : α) (hL : (L.map idOf).Nodup) (hx : x ∈ L)
    (hid : idOf x ∉ R.map idOf) : x ∈ mergeArrays idOf L R := by
  rw [mergeArrays_eq_append idOf L R hL]
  have hcond : (!R.any (fun y => idOf y == idOf x)) = true := by
    have : R.any (fun y => idOf y == idOf x) = false := by
      by_contra hne
      obtain ⟨y, hy, hbeq⟩ := List.any_eq_true.mp (eq_true_of_ne_false hne)
      exact hid (List.mem_map.mpr ⟨y, hy, beq_iff_eq.mp hbeq⟩)
    rw [this]; rfl
  exact List.mem_append.mpr (Or.inr (List.mem_filter.mpr ⟨hx, hcond⟩))

theorem mergeArrays_ids_nodup {α : Type} (idOf : α → String) (L R : List α)
    (hL : (L.map idOf).Nodup) (hR : (R.map idOf).Nodup) :
    ((mergeArrays idOf L R).map idOf).Nodup := by
  rw [mergeArrays_eq_append idOf L R hL, List.map_append]
  apply List.Nodup.append hR
  · exact ((List.filter_sublist L).map idOf).nodup hL
  · intro a haR haL
    obtain ⟨x, hxmem, hxa⟩ := List.mem_map.mp haL
    have hcond := (List.mem_filter.mp hxmem).2
    have hnotin : R.any (fun y => idOf y == idOf x) = false := by
      cases hany : R.any (fun y => idOf y == idOf x)
      · rfl
      · rw [hany] at hcond; cases hcond
    obtain ⟨y, hy, hya⟩ := List.mem_map.mp haR
    have : R.any (fun z => idOf z == idOf x) = true :=
      List.any_eq_true.mpr ⟨y, hy, beq_iff_eq.mpr (hya.trans hxa.symm)⟩
    rw [this] at hnotin
    cases hnotin

/-- The per-snapshot identity invariant of the data model: within one
snapshot, `id` is unique per entity type. -/
def distinctIds (d : SystemData) : Prop :=
  (d.users.map User.id).Nodup ∧
  (d.components.map Component.id).Nodup ∧
  (d.requests.map BorrowRequest.id).Nodup ∧
  (d.notifications.map Notification.id).Nodup ∧
  (d.loginSessions.map LoginSession.id).Nodup

/-- Total number of entities across all five collections of a snapshot. -/
def totalEntities (d : SystemData) : Nat :=
  d.users.length + d.components.length + d.requests.length +
    d.notifications.length + d.loginSessions.length

/-- Per-collection form of the merge-precedence property. -/
theorem merge_precedence_coll {α : Type} (idOf : α → String) (L R : List α)
    (k : String) (hr : ∃ y ∈ R, idOf y = k) :
    (mergeArrays idOf L R).filter (fun z => idOf z == k) =
        R.filter (fun z => idOf z == k) ∧
      ∀ x ∈ L, idOf x = k → x ∉ R → x ∉ mergeArrays idOf L R := by
  refine ⟨mergeArrays_filter_of_mem idOf L R k hr, ?_⟩
  intro x _ hxk hxr
  apply not_mem_mergeArrays idOf L R x _ hxr
  obtain ⟨y, hy, hyk⟩ := hr
  exact ⟨y, hy, hyk.trans hxk.symm⟩

/-- C3: merge precedence.  For every pair of snapshots and every entity id
present in both the local and the remote version of the same collection, the
corresponding collection of `mergeData local remote` contains exactly the
remote entities with that id, and the local version appears nowhere in the
result. -/
theorem merge_precedence (l r : SystemData) (k : String) :
    ((∃ x ∈ l.users, x.id = k) → (∃ y ∈ r.users, y.id = k) →
      (mergeData l r).users.filter (fun z => z.id == k) =
          r.users.filter (fun z => z.id == k) ∧
        ∀ x ∈ l.users, x.id = k → x ∉ r.users → x ∉ (mergeData l r).users) ∧
    ((∃ x ∈ l.components, x.id = k) → (∃ y ∈ r.components, y.id = k) →
      (mergeData l r).components.filter (fun z => z.id == k) =
          r.components.filter (fun z => z.id == k) ∧
        ∀ x ∈ l.components, x.id = k → x ∉ r.components →
          x ∉ (mergeData l r).components) ∧
    ((∃ x ∈ l.requests, x.id = k) → (∃ y ∈ r.requests, y.id = k) →
      (mergeData l r).requests.filter (fun z => z.id == k) =
          r.requests.filter (fun z => z.id == k) ∧
        ∀ x ∈ l.requests, x.id = k → x ∉ r.requests → x ∉ (mergeData l r).requests) ∧
    ((∃ x ∈ l.notifications, x.id = k) → (∃ y ∈ r.notifications, y.id = k) →
      (mergeData l r).notifications.filter (fun z => z.id == k) =
          r.notifications.filter (fun z => z.id == k) ∧
        ∀ x ∈ l.notifications, x.id = k → x ∉ r.notifications →
          x ∉ (mergeData l r).notifications) ∧
    ((∃ x ∈ l.loginSessions, x.id = k) → (∃ y ∈ r.loginSessions, y.id = k) →
      (mergeData l r).loginSessions.filter (fun z => z.id == k) =
          r.loginSessions.filter (fun z => z.id == k) ∧
        ∀ x ∈ l.loginSessions, x.id = k → x ∉ r.loginSessions →
          x ∉ (mergeData l r).loginSessions) := by
  refine ⟨fun _ hr => ?_, fun _ hr => ?_, fun _ hr => ?_, fun _ hr => ?_, fun _ hr => ?_⟩
  · exact merge_precedence_coll User.id l.users r.users k hr
  · exact merge_precedence_coll Component.id l.components r.components k hr
  · exact merge_precedence_coll BorrowRequest.id l.requests r.requests k hr
  · exact merge_precedence_coll Notification.id l.notifications r.notifications k hr
  · exact merge_precedence_coll LoginSession.id l.loginSessions r.loginSessions k hr

/-- Witness for C3 at a concrete pair of snapshots: the local and the remote
store both hold a component with id "c1"; after the merge the component
collection keeps exactly the remote version and the local version is gone. -/
theorem merge_precedence_witness :
    (mergeData
        { users := [], components := [⟨"c1", 1⟩], requests := [],
          notifications := [], loginSessions := [] }
        { users := [], components := [⟨"c1", 2⟩], requests := [],
          notifications := [], loginSessions := [] }).components.filter
          (fun z => z.id == "c1") = [⟨"c1", 2⟩] ∧
    (⟨"c1", 1⟩ : Component) ∉ (mergeData
        { users := [], components := [⟨"c1", 1⟩], requests := [],
          notifications := [], loginSessions := [] }
        { users := [], components := [⟨"c1", 2⟩], requests := [],
          notifications := [], loginSessions := [] }).components := by
  have h := (merge_precedence
      { users := [], components := [⟨"c1", 1⟩], requests := [],
        notifications := [], loginSessions := [] }
      { users := [], components := [⟨"c1", 2⟩], requests := [],
        notifications := [], loginSessions := [] } "c1").2.1
      ⟨⟨"c1", 1⟩, by simp, rfl⟩ ⟨⟨"c1", 2⟩, by simp, rfl⟩
  refine ⟨h.1, h.2 ⟨"c1", 1⟩ (by simp) rfl (by decide)⟩

/-- C4: merge additivity.  Under the snapshot invariant (ids unique within
each local collection), every local entity whose id is absent from the
corresponding remote collection appears unchanged in `mergeData local
remote`. -/
theorem merge_additivity (l r : SystemData) (hl : distinctIds l) :
    (∀ x ∈ l.users, x.id ∉ r.users.map User.id → x ∈ (mergeData l r).users) ∧
    (∀ x ∈ l.components, x.id ∉ r.components.map Component.id →
      x ∈ (mergeData l r).components) ∧
    (∀ x ∈ l.requests, x.id ∉ r.requests.map BorrowRequest.id →
      x ∈ (mergeData l r).requests) ∧
    (∀ x ∈ l.notifications, x.id ∉ r.notifications.map Notification.id →
      x ∈ (mergeData l r).notifications) ∧
    (∀ x ∈ l.loginSessions, x.id ∉ r.loginSessions.map LoginSession.id →
      x ∈ (mergeData l r).loginSessions) := by
  obtain ⟨h1, h2, h3, h4, h5⟩ := hl
  refine ⟨fun x hx hid => ?_, fun x hx hid => ?_, fun x hx hid => ?_,
    fun x hx hid => ?_, fun x hx hid => ?_⟩
  · exact mem_mergeArrays_of_not_mem_ids User.id l.users r.users x h1 hx hid
  · exact mem_mergeArrays_of_not_mem_ids Component.id l.components r.components x h2 hx hid
  · exact mem_mergeArrays_of_not_mem_ids BorrowRequest.id l.requests r.requests x h3 hx hid
  · exact mem_mergeArrays_of_not_mem_ids Notification.id l.notifications r.notifications x h4 hx hid
  · exact mem_mergeArrays_of_not_mem_ids LoginSession.id l.loginSessions r.loginSessions x h5 hx hid

/-- Witness for C4 at a concrete pair of snapshots: a local-only user
survives the merge unchanged. -/
theorem merge_additivity_witness :
    (⟨"u7", 3⟩ : User) ∈ (mergeData
        { users := [⟨"u7", 3⟩], components := [], requests := [],
          notifications := [], loginSessions := [] }
        { users := [⟨"u1", 0⟩], components := [], requests := [],
          notifications := [], loginSessions := [] }).users :=
  (merge_additivity
      { users := [⟨"u7", 3⟩], components := [], requests := [],
        notifications := [], loginSessions := [] }
      { users := [⟨"u1", 0⟩], components := [], requests := [],
        notifications := [], loginSessions := [] }
      (by refine ⟨?_, ?_, ?_, ?_, ?_⟩ <;> decide)).1
    ⟨"u7", 3⟩ (by simp) (by decide)

/-- C5: merge idempotence.  `mergeData A (mergeData A B) = mergeData A B`
for all snapshots `A`, `B`; the merge is a pure function applied per
collection. -/
theorem merge_idempotent (A B : SystemData) :
    mergeData A (mergeData A B) = mergeData A B := by
  unfold mergeData
  simp only [SystemData.mk.injEq]
  exact ⟨mergeArrays_self_absorb User.id A.users B.users,
    mergeArrays_self_absorb Component.id A.components B.components,
    mergeArrays_self_absorb BorrowRequest.id A.requests B.requests,
    mergeArrays_self_absorb Notification.id A.notifications B.notifications,
    mergeArrays_self_absorb LoginSession.id A.loginSessions B.loginSessions⟩

/-- C10: the merge preserves the per-snapshot identity invariant, and each
merged collection is exactly the remote collection followed, in local order,
by the local-only entities. -/
theorem merge_preserves_distinct_ids (l r : SystemData)
    (hl : distinctIds l) (hr : distinctIds r) :
    distinctIds (mergeData l r) ∧
    (mergeData l r).users =
      r.users ++ l.users.filter (fun x => !r.users.any (fun y => y.id == x.id)) ∧
    (mergeData l r).components =
      r.components ++
        l.components.filter (fun x => !r.components.any (fun y => y.id == x.id)) ∧
    (mergeData l r).requests =
      r.requests ++
        l.requests.filter (fun x => !r.requests.any (fun y => y.id == x.id)) ∧
    (mergeData l r).notifications =
      r.notifications ++
        l.notifications.filter (fun x => !r.notifications.any (fun y => y.id == x.id)) ∧
    (mergeData l r).loginSessions =
      r.loginSessions ++
        l.loginSessions.filter (fun x => !r.loginSessions.any (fun y => y.id == x.id)) := by
  obtain ⟨hl1, hl2, hl3, hl4, hl5⟩ := hl
  obtain ⟨hr1, hr2, hr3, hr4, hr5⟩ := hr
  refine ⟨⟨?_, ?_, ?_, ?_, ?_⟩, ?_, ?_, ?_, ?_, ?_⟩
  · exact mergeArrays_ids_nodup User.id l.users r.users hl1 hr1
  · exact mergeArrays_ids_nodup Component.id l.components r.components hl2 hr2
  · exact mergeArrays_ids_nodup BorrowRequest.id l.requests r.requests hl3 hr3
  · exact mergeArrays_ids_nodup Notification.id l.notifications r.notifications hl4 hr4
  · exact mergeArrays_ids_nodup LoginSession.id l.loginSessions r.loginSessions hl5 hr5
  · exact mergeArrays_eq_append User.id l.users r.users hl1
  · exact mergeArrays_eq_append Component.id l.components r.components hl2
  · exact mergeArrays_eq_append BorrowRequest.id l.requests r.requests hl3
  · exact mergeArrays_eq_append Notification.id l.notifications r.notifications hl4
  · exact mergeArrays_eq_append LoginSession.id l.loginSessions r.loginSessions hl5

/-- Witness for C10 at a concrete pair of snapshots with distinct ids. -/
theorem merge_preserves_distinct_ids_witness :
    ((mergeData
        { users := [⟨"u1", 1⟩, ⟨"u2", 2⟩], components := [], requests := [],
          notifications := [], loginSessions := [] }
        { users := [⟨"u2", 9⟩, ⟨"u3", 3⟩], components := [], requests := [],
          notifications := [], loginSessions := [] }).users.map User.id).Nodup ∧
    (mergeData
        { users := [⟨"u1", 1⟩, ⟨"u2", 2⟩], components := [], requests := [],
          notifications := [], loginSessions := [] }
        { users := [⟨"u2", 9⟩, ⟨"u3", 3⟩], components := [], requests := [],
          notifications := [], loginSessions := [] }).users =
      [⟨"u2", 9⟩, ⟨"u3", 3⟩, ⟨"u1", 1⟩] := by
  have h := merge_preserves_distinct_ids
      { users := [⟨"u1", 1⟩, ⟨"u2", 2⟩], components := [], requests := [],
        notifications := [], loginSessions := [] }
      { users := [⟨"u2", 9⟩, ⟨"u3", 3⟩], components := [], requests := [],
        notifications := [], loginSessions := [] }
      (by refine ⟨?_, ?_, ?_, ?_, ?_⟩ <;> decide)
      (by refine ⟨?_, ?_, ?_, ?_, ?_⟩ <;> decide)
  refine ⟨h.1.1, ?_⟩
  rw [h.2.1]
  decide

theorem isFirebaseEmpty_iff (d : SystemData) :
    isFirebaseEmpty d = true ↔
      d.users = [] ∧ d.components = [] ∧ d.requests = [] := by
  simp [isFirebaseEmpty, List.length_eq_zero, and_assoc]

/-- A snapshot with zero entities in every collection. -/
def emptySnapshot : SystemData :=
  { users := [], components := [], requests := [],
    notifications := [], loginSessions := [] }

/-- A concrete local snapshot holding a single user. -/
def demoLocal : SystemData :=
  { users := [⟨"u1", 0⟩], components := [], requests := [],
    notifications := [], loginSessions := [] }

/-- A concrete local snapshot holding a single component with id "9". -/
def demoLocal9 : SystemData :=
  { users := [], components := [⟨"9", 0⟩], requests := [],
    notifications := [], loginSessions := [] }

/-- A concrete remote snapshot whose only entity is one notification. -/
def remoteOnlyNotification : SystemData :=
  { users := [], components := [], requests := [],
    notifications := [⟨"n1", false, 0⟩], loginSessions := [] }

/-- C1 counterexample: a remote snapshot holding one notification (so not
zero entities across the five collections) still takes the first-run
migration path — `isFirebaseEmpty` consults only users, components and
requests — and the merge result is not persisted locally. -/
theorem sync_migration_counterexample :
    totalEntities remoteOnlyNotification ≠ 0 ∧
    (syncWithFirebase ⟨true, false, demoLocal⟩ (Except.ok remoteOnlyNotification)
        (Except.ok ())).2.1 =
      [RemoteCall.fetchSnapshot, RemoteCall.migrateLocalDataToFirebase demoLocal] ∧
    (syncWithFirebase ⟨true, false, demoLocal⟩ (Except.ok remoteOnlyNotification)
        (Except.ok ())).1.localData ≠ mergeData demoLocal remoteOnlyNotification := by
  refine ⟨by decide, by decide, by decide⟩

/-- C1 (amended): during a sync pass (online, not already in progress, remote
fetch succeeds), the first-run migration path is taken exactly when the
remote snapshot has zero users, zero components and zero requests
(notifications and login sessions are not consulted); otherwise the pass
merges (local, remote) and persists the merged result to the local store. -/
theorem sync_migration_condition (st : SyncState) (remote : SystemData)
    (mr : Except String Unit) (hOn : st.isOnline = true)
    (hNoSync : st.syncInProgress = false) :
    (remote.users = [] ∧ remote.components = [] ∧ remote.requests = [] →
      (syncWithFirebase st (Except.ok remote) mr).1.localData = st.localData ∧
      RemoteCall.migrateLocalDataToFirebase st.localData ∈
        (syncWithFirebase st (Except.ok remote) mr).2.1) ∧
    (¬(remote.users = [] ∧ remote.components = [] ∧ remote.requests = []) →
      (syncWithFirebase st (Except.ok remote) mr).1.localData =
        mergeData st.localData remote ∧
      (syncWithFirebase st (Except.ok remote) mr).2.1 = [RemoteCall.fetchSnapshot]) := by
  constructor
  · intro hemp
    have he : isFirebaseEmpty remote = true := (isFirebaseEmpty_iff remote).mpr hemp
    cases mr with
    | ok u => cases u; simp [syncWithFirebase, hOn, hNoSync, he]
    | error e => simp [syncWithFirebase, hOn, hNoSync, he]
  · intro hne
    have he : isFirebaseEmpty remote = false := by
      cases h : isFirebaseEmpty remote
      · rfl
      · exact absurd ((isFirebaseEmpty_iff remote).mp h) hne
    simp [syncWithFirebase, hOn, hNoSync, he]

/-- Witness for C1 (amended) at concrete inputs, migration branch: an empty
remote snapshot leaves the local store untouched and pushes the local
snapshot. -/
theorem sync_migration_condition_witness :
    (syncWithFirebase ⟨true, false, demoLocal⟩ (Except.ok emptySnapshot)
        (Except.ok ())).1.localData = demoLocal ∧
    RemoteCall.migrateLocalDataToFirebase demoLocal ∈
      (syncWithFirebase ⟨true, false, demoLocal⟩ (Except.ok emptySnapshot)
        (Except.ok ())).2.1 :=
  (sync_migration_condition ⟨true, false, demoLocal⟩ emptySnapshot
      (Except.ok ()) rfl rfl).1 ⟨rfl, rfl, rfl⟩

/-- C9: on the first-run migration path (remote found empty by the code's
check) the local store is never written: the pass pushes the local snapshot
to the remote store and the local snapshot after the pass equals the local
snapshot before it. -/
theorem sync_migration_preserves_local (st : SyncState) (remote : SystemData)
    (mr : Except String Unit) (hOn : st.isOnline = true)
    (hNoSync : st.syncInProgress = false)
    (hEmpty : isFirebaseEmpty remote = true) :
    (syncWithFirebase st (Except.ok remote) mr).1.localData = st.localData ∧
    (syncWithFirebase st (Except.ok remote) mr).2.1 =
      [RemoteCall.fetchSnapshot, RemoteCall.migrateLocalDataToFirebase st.localData] := by
  cases mr with
  | ok u => cases u; simp [syncWithFirebase, hOn, hNoSync, hEmpty]
  | error e => simp [syncWithFirebase, hOn, hNoSync, hEmpty]

/-- Witness for C9: local store `{X : {id := 9}}`, remote empty; the pass
migrates X to remote and the local snapshot is untouched. -/
theorem sync_migration_preserves_local_witness :
    (syncWithFirebase ⟨true, false, demoLocal9⟩ (Except.ok emptySnapshot)
        (Except.ok ())).1.localData = demoLocal9 ∧
    (syncWithFirebase ⟨true, false, demoLocal9⟩ (Except.ok emptySnapshot)
        (Except.ok ())).2.1 =
      [RemoteCall.fetchSnapshot, RemoteCall.migrateLocalDataToFirebase demoLocal9] :=
  sync_migration_preserves_local ⟨true, false, demoLocal9⟩ emptySnapshot
    (Except.ok ()) rfl rfl rfl

/-- C6: if the remote fetch fails, the pass aborts with the exception caught
and logged, the local store is not mutated, and `syncInProgress` is false
afterwards; moreover `syncInProgress` is false at the end of every pass
started from an idle state, whatever the fetch and migration outcomes. -/
theorem sync_failure_resets_flag (st : SyncState)
    (hNoSync : st.syncInProgress = false) :
    (∀ (e : String) (mr : Except String Unit), st.isOnline = true →
      (syncWithFirebase st (Except.error e) mr).1.localData = st.localData ∧
      (syncWithFirebase st (Except.error e) mr).1.syncInProgress = false ∧
      (syncWithFirebase st (Except.error e) mr).2.1 = [RemoteCall.fetchSnapshot] ∧
      (syncWithFirebase st (Except.error e) mr).2.2 = ["Sync failed: " ++ e]) ∧
    (∀ (fr : Except String SystemData) (mr : Except String Unit),
      (syncWithFirebase st fr mr).1.syncInProgress = false) := by
  constructor
  · intro e mr hOn
    simp [syncWithFirebase, hOn, hNoSync]
  · intro fr mr
    cases hOn : st.isOnline
    · simp [syncWithFirebase, hOn, hNoSync]
    · cases fr with
      | error e => simp [syncWithFirebase, hOn, hNoSync]
      | ok fb =>
          by_cases he : isFirebaseEmpty fb = true
          · cases mr with
            | ok u => cases u; simp [syncWithFirebase, hOn, hNoSync, he]
            | error e => simp [syncWithFirebase, hOn, hNoSync, he]
          · have he' : isFirebaseEmpty fb = false := eq_false_of_ne_true he
            simp [syncWithFirebase, hOn, hNoSync, he']

/-- Witness for C6 at a concrete failing fetch. -/
theorem sync_failure_resets_flag_witness :
    (syncWithFirebase ⟨true, false, demoLocal⟩ (Except.error ("network down"))
        (Except.ok ())).1.localData = demoLocal ∧
    (syncWithFirebase ⟨true, false, demoLocal⟩ (Except.error ("network down"))
        (Except.ok ())).1.syncInProgress = false ∧
    (syncWithFirebase ⟨true, false, demoLocal⟩ (Except.error ("network down"))
        (Except.ok ())).2.1 = [RemoteCall.fetchSnapshot] ∧
    (syncWithFirebase ⟨true, false, demoLocal⟩ (Except.error ("network down"))
        (Except.ok ())).2.2 = ["Sync failed: " ++ "network down"] :=
  (sync_failure_resets_flag ⟨true, false, demoLocal⟩ rfl).1 ("network down")
    (Except.ok ()) rfl

/-- C7: invoking a sync pass while offline, or while another pass is already
in progress, is a no-op: the state is unchanged, no remote call is issued
and nothing is logged. -/
theorem sync_guard_noop (st : SyncState) (fr : Except String SystemData)
    (mr : Except String Unit)
    (h : st.isOnline = false ∨ st.syncInProgress = true) :
    syncWithFirebase st fr mr = (st, [], []) := by
  unfold syncWithFirebase
  rcases h with h | h <;> simp [h]

/-- Witness for C7: an offline invocation and an in-progress invocation, at
concrete inputs, both return immediately with no remote call. -/
theorem sync_guard_noop_witness :
    syncWithFirebase ⟨false, false, demoLocal⟩ (Except.ok emptySnapshot)
        (Except.ok ()) = (⟨false, false, demoLocal⟩, [], []) ∧
    syncWithFirebase ⟨true, true, demoLocal⟩ (Except.ok emptySnapshot)
        (Except.ok ()) = (⟨true, true, demoLocal⟩, [], []) :=
  ⟨sync_guard_noop ⟨false, false, demoLocal⟩ (Except.ok emptySnapshot)
      (Except.ok ()) (Or.inl rfl),
   sync_guard_noop ⟨true, true, demoLocal⟩ (Except.ok emptySnapshot)
      (Except.ok ()) (Or.inr rfl)⟩

theorem dualWrite_fst (conn : Bool) (d1 : SystemData) (call : RemoteWrite)
    (p : String) (r : Except String Unit) : (dualWrite conn d1 call p r).1 = d1 := by
  cases conn <;> cases r <;> rfl

theorem dualWrite_offline (d1 : SystemData) (call : RemoteWrite) (p : String)
    (r : Except String Unit) : (dualWrite false d1 call p r).2.1 = [] := by
  cases r <;> rfl

/-- C2: every mutating wrapper performs the local store write first and
unconditionally — the resulting local store equals the local-store operation
applied to the previous store, for every connectivity state and every remote
outcome (so a remote failure never propagates and never undoes the local
write) — and when offline no remote call is attempted. -/
theorem dual_write_local_first :
    (∀ (conn : Bool) (d : SystemData) (u : User) (r : Except String Unit),
      (addUser conn d u r).1 = DataService.addUser d u ∧
      u ∈ (addUser conn d u r).1.users ∧
      (addUser false d u r).2.1 = []) ∧
    (∀ (conn : Bool) (d : SystemData) (u : User) (r : Except String Unit),
      (updateUser conn d u r).1 = DataService.updateUser d u ∧
      (updateUser false d u r).2.1 = []) ∧
    (∀ (conn : Bool) (d : SystemData) (c : Component) (r : Except String Unit),
      (addComponent conn d c r).1 = DataService.addComponent d c ∧
      (addComponent false d c r).2.1 = []) ∧
    (∀ (conn : Bool) (d : SystemData) (c : Component) (r : Except String Unit),
      (updateComponent conn d c r).1 = DataService.updateComponent d c ∧
      (updateComponent false d c r).2.1 = []) ∧
    (∀ (conn : Bool) (d : SystemData) (cid : String) (r : Except String Unit),
      (deleteComponent conn d cid r).1 = DataService.deleteComponent d cid ∧
      (∀ x ∈ (deleteComponent conn d cid r).1.components, ¬ x.id = cid) ∧
      (deleteComponent false d cid r).2.1 = []) ∧
    (∀ (conn : Bool) (d : SystemData) (req : BorrowRequest) (r : Except String Unit),
      (addRequest conn d req r).1 = DataService.addRequest d req ∧
      (addRequest false d req r).2.1 = []) ∧
    (∀ (conn : Bool) (d : SystemData) (req : BorrowRequest) (r : Except String Unit),
      (updateRequest conn d req r).1 = DataService.updateRequest d req ∧
      (updateRequest false d req r).2.1 = []) ∧
    (∀ (conn : Bool) (d : SystemData) (n : Notification) (r : Except String Unit),
      (addNotification conn d n r).1 = DataService.addNotification d n ∧
      (addNotification false d n r).2.1 = []) ∧
    (∀ (conn : Bool) (d : SystemData) (nid : String) (r : Except String Unit),
      (markNotificationAsRead conn d nid r).1 =
        DataService.markNotificationAsRead d nid ∧
      (markNotificationAsRead false d nid r).2.1 = []) ∧
    (∀ (conn : Bool) (d : SystemData) (u : User) (sid : String) (now : Nat)
        (r : Except String Unit),
      (createLoginSession conn d u sid now r).1.1 =
        (DataService.createLoginSession d u sid now).1 ∧
      (createLoginSession conn d u sid now r).2 =
        (DataService.createLoginSession d u sid now).2 ∧
      (createLoginSession false d u sid now r).1.2.1 = []) := by
  refine ⟨?_, ?_, ?_, ?_, ?_, ?_, ?_, ?_, ?_, ?_⟩
  · intro conn d u r
    refine ⟨dualWrite_fst _ _ _ _ _, ?_, dualWrite_offline _ _ _ _⟩
    have h1 : (addUser conn d u r).1 = DataService.addUser d u :=
      dualWrite_fst _ _ _ _ _
    rw [h1]
    simp [DataService.addUser]
  · intro conn d u r
    exact ⟨dualWrite_fst _ _ _ _ _, dualWrite_offline _ _ _ _⟩
  · intro conn d c r
    exact ⟨dualWrite_fst _ _ _ _ _, dualWrite_offline _ _ _ _⟩
  · intro conn d c r
    exact ⟨dualWrite_fst _ _ _ _ _, dualWrite_offline _ _ _ _⟩
  · intro conn d cid r
    refine ⟨dualWrite_fst _ _ _ _ _, ?_, dualWrite_offline _ _ _ _⟩
    intro x hx
    have h1 : (deleteComponent conn d cid r).1 = DataService.deleteComponent d cid :=
      dualWrite_fst _ _ _ _ _
    rw [h1] at hx
    simp [DataService.deleteComponent, List.mem_filter] at hx
    exact hx.2
  · intro conn d req r
    exact ⟨dualWrite_fst _ _ _ _ _, dualWrite_offline _ _ _ _⟩
  · intro conn d req r
    exact ⟨dualWrite_fst _ _ _ _ _, dualWrite_offline _ _ _ _⟩
  · intro conn d n r
    exact ⟨dualWrite_fst _ _ _ _ _, dualWrite_offline _ _ _ _⟩
  · intro conn d nid r
    exact ⟨dualWrite_fst _ _ _ _ _, dualWrite_offline _ _ _ _⟩
  · intro conn d u sid now r
    refine ⟨?_, rfl, ?_⟩
    · simp only [createLoginSession]
      exact dualWrite_fst _ _ _ _ _
    · simp only [createLoginSession]
      exact dualWrite_offline _ _ _ _

/-- A concrete local store with two components, used by witnesses. -/
def demoStore : SystemData :=
  { users := [], components := [⟨"c1", 1⟩, ⟨"c2", 2⟩], requests := [],
    notifications := [], loginSessions := [] }

/-- Witness for C2 at concrete inputs: an `addUser` with a failing remote
still lands in the local store, an offline `addUser` issues no remote call,
and a `deleteComponent` removes exactly the targeted component. -/
theorem dual_write_local_first_witness :
    (⟨"u2", 5⟩ : User) ∈
      (addUser true demoLocal ⟨"u2", 5⟩ (Except.error ("down"))).1.users ∧
    (addUser false demoLocal ⟨"u2", 5⟩ (Except.error ("down"))).2.1 = [] ∧
    (deleteComponent true demoStore ("c1") (Except.ok ())).1.components =
      [⟨"c2", 2⟩] := by
  have h := dual_write_local_first
  refine ⟨(h.1 true demoLocal ⟨"u2", 5⟩ (Except.error ("down"))).2.1,
          (h.1 false demoLocal ⟨"u2", 5⟩ (Except.error ("down"))).2.2, ?_⟩
  rw [(h.2.2.2.2.1 true demoStore ("c1") (Except.ok ())).1]
  decide

theorem endLoginSession_fst (conn : Bool) (d : SystemData) (uid : String)
    (now : Nat) (rf : Except String (List LoginSession)) :
    (endLoginSession conn d uid now rf).1 = DataService.endLoginSession d uid now := by
  cases conn <;> cases rf <;> rfl

/-- C8: `endLoginSession userId` closes the user's active sessions locally
(`isActive` false, `logoutTime` the close time, duration the delta between
the close time and the session's stored open time) and, when online with a
successful remote fetch, issues exactly one closing update per remote
session of that user with `isActive` true, computing the same closing fields
from that session's stored open time. -/
theorem end_login_session_spec (d : SystemData) (uid : String) (now : Nat)
    (ss : List LoginSession) :
    (∀ (conn : Bool) (rf : Except String (List LoginSession)),
      ∀ s ∈ d.loginSessions, s.userId = uid → s.isActive = true →
        ∃ s' ∈ (endLoginSession conn d uid now rf).1.loginSessions,
          s'.id = s.id ∧ s'.userId = s.userId ∧ s'.isActive = false ∧
          s'.logoutTime = some now ∧
          s'.sessionDuration = some ((now : Int) - (s.loginTime : Int))) ∧
    (∀ s ∈ ss, s.userId = uid → s.isActive = true →
      SessionCall.updateLoginSession s.id false now
          ((now : Int) - (s.loginTime : Int)) ∈
        (endLoginSession true d uid now (Except.ok ss)).2.1) ∧
    (∀ (i : String) (b : Bool) (t : Nat) (dur : Int),
      SessionCall.updateLoginSession i b t dur ∈
        (endLoginSession true d uid now (Except.ok ss)).2.1 →
      ∃ s ∈ ss, s.userId = uid ∧ s.isActive = true ∧ i = s.id ∧ b = false ∧
        t = now ∧ dur = (now : Int) - (s.loginTime : Int)) := by
  refine ⟨?_, ?_, ?_⟩
  · intro conn rf s hs huid hact
    refine ⟨DataService.closeSession now s, ?_, rfl, rfl, rfl, rfl, rfl⟩
    rw [endLoginSession_fst]
    simp only [DataService.endLoginSession]
    exact List.mem_map.mpr ⟨s, hs, by simp [huid, hact]⟩
  · intro s hs huid hact
    simp only [endLoginSession]
    apply List.mem_cons_of_mem
    exact List.mem_map.mpr ⟨s, List.mem_filter.mpr ⟨hs, by simp [huid, hact]⟩, rfl⟩
  · intro i b t dur hmem
    simp only [endLoginSession] at hmem
    rcases List.mem_cons.mp hmem with hhd | htl
    · cases hhd
    · obtain ⟨s, hsf, heq⟩ := List.mem_map.mp htl
      obtain ⟨hs, hcond⟩ := List.mem_filter.mp hsf
      rw [Bool.and_eq_true, beq_iff_eq] at hcond
      obtain ⟨h1, h2, h3, h4⟩ := SessionCall.updateLoginSession.injEq .. ▸ heq
      exact ⟨s, hs, hcond.1, hcond.2, h1.symm, h2.symm, h3.symm, h4.symm⟩

/-- A concrete open local session of user "u1", opened at time 100. -/
def demoSession : LoginSession :=
  { id := "s1", userId := "u1", loginTime := 100, logoutTime := none,
    sessionDuration := none, isActive := true }

/-- A concrete open remote session of user "u1", opened at time 40. -/
def demoRemoteSession : LoginSession :=
  { id := "s9", userId := "u1", loginTime := 40, logoutTime := none,
    sessionDuration := none, isActive := true }

/-- A concrete local store holding the open session of user "u1". -/
def demoSessionData : SystemData :=
  { users := [⟨"u1", 0⟩], components := [], requests := [],
    notifications := [], loginSessions := [demoSession] }

/-- Witness for C8 at concrete inputs: closing user "u1" at time 250 closes
the local session opened at 100 with duration 150 and issues a closing
update for the remote active session opened at 40 with duration 210. -/
theorem end_login_session_spec_witness :
    (∃ s' ∈ (endLoginSession true demoSessionData ("u1") 250
        (Except.ok [demoRemoteSession])).1.loginSessions,
      s'.id = demoSession.id ∧ s'.userId = demoSession.userId ∧
      s'.isActive = false ∧ s'.logoutTime = some 250 ∧
      s'.sessionDuration = some ((250 : Int) - (demoSession.loginTime : Int))) ∧
    SessionCall.updateLoginSession demoRemoteSession.id false 250
        ((250 : Int) - (demoRemoteSession.loginTime : Int)) ∈
      (endLoginSession true demoSessionData ("u1") 250
        (Except.ok [demoRemoteSession])).2.1 := by
  have h := end_login_session_spec demoSessionData ("u1") 250 [demoRemoteSession]
  exact ⟨h.1 true (Except.ok [demoRemoteSession]) demoSession (by decide) rfl rfl,
         h.2.1 demoRemoteSession (by decide) rfl rfl⟩

end HybridData
